import Mathlib

set_option maxRecDepth 8192

/-!
Shallow embedding of the jp-prefecture crate (src/lib.rs, src/mapping.rs,
src/prefectures.rs): the 47-variant `Prefecture` enum, the static name table
`PREFECTURE_MAP`, the name accessors with their suffix-stripping short forms,
and the reverse-lookup functions `find_by_code`, `find_by_kanji`,
`find_by_hiragana`, `find_by_katakana`, `find_by_english`, `find` and
`Prefecture.from_str`.

Modelling conventions:
* Rust `HashMap`s are modelled as association lists.  `HashMap::insert`
  overwrites the previous binding of a key; prepending the new binding and
  letting lookup take the first match is observationally identical for `get`,
  which is the only operation applied to the maps built here.
* The iteration order of the Rust `HashMap` `PREFECTURE_MAP` is unspecified;
  the embedding fixes it to the source insertion order of src/mapping.rs
  (Hokkaido first, Okinawa last).  Where two table entries collide on a key
  this determinizes which prefecture wins the collision.
* Rust `u32` codes are modelled as `Nat`: the only operations performed on
  codes are equality tests, so wrap-around is never observable.
* The `expect("Unexpected error")` panics of the accessors are modelled by
  returning `""`; the totality theorem for the table shows the branch is
  unreachable.
-/

namespace JpPrefecture

/-- Error enum of src/lib.rs. -/
inductive Error
  | InvalidPrefectureCode (code : Nat)
  | InvalidPrefectureName (name : String)
deriving DecidableEq

/-- Row type of the static table (src/mapping.rs `PrefectureData`).  The Latin
field is named `romaji` in the struct declaration of src/mapping.rs. -/
structure PrefectureData where
  jis_x_0401_code : Nat
  kanji : String
  hiragana : String
  katakana : String
  romaji : String

/-- The 47-variant prefecture enum of src/prefectures.rs, in declaration
order. -/
inductive Prefecture
  | Hokkaido
  | Aomori
  | Iwate
  | Miyagi
  | Akita
  | Yamagata
  | Fukushima
  | Ibaraki
  | Tochigi
  | Gunma
  | Saitama
  | Chiba
  | Tokyo
  | Kanagawa
  | Niigata
  | Toyama
  | Ishikawa
  | Fukui
  | Yamanashi
  | Nagano
  | Gifu
  | Shizuoka
  | Aichi
  | Mie
  | Shiga
  | Kyoto
  | Osaka
  | Hyogo
  | Nara
  | Wakayama
  | Tottori
  | Shimane
  | Okayama
  | Hiroshima
  | Yamaguchi
  | Tokushima
  | Kagawa
  | Ehime
  | Kochi
  | Fukuoka
  | Saga
  | Nagasaki
  | Kumamoto
  | Oita
  | Miyazaki
  | Kagoshima
  | Okinawa
deriving DecidableEq, Fintype

/-- Rust `*self as u32`: the explicit enum discriminant of each variant. -/
def Prefecture.jis_x_0401_code : Prefecture -> Nat
  | .Hokkaido => 1
  | .Aomori => 2
  | .Iwate => 3
  | .Miyagi => 4
  | .Akita => 5
  | .Yamagata => 6
  | .Fukushima => 7
  | .Ibaraki => 8
  | .Tochigi => 9
  | .Gunma => 10
  | .Saitama => 11
  | .Chiba => 12
  | .Tokyo => 13
  | .Kanagawa => 14
  | .Niigata => 15
  | .Toyama => 16
  | .Ishikawa => 17
  | .Fukui => 18
  | .Yamanashi => 19
  | .Nagano => 20
  | .Gifu => 21
  | .Shizuoka => 22
  | .Aichi => 23
  | .Mie => 24
  | .Shiga => 25
  | .Kyoto => 26
  | .Osaka => 27
  | .Hyogo => 28
  | .Nara => 29
  | .Wakayama => 30
  | .Tottori => 31
  | .Shimane => 32
  | .Okayama => 33
  | .Hiroshima => 34
  | .Yamaguchi => 35
  | .Tokushima => 36
  | .Kagawa => 37
  | .Ehime => 38
  | .Kochi => 39
  | .Fukuoka => 40
  | .Saga => 41
  | .Nagasaki => 42
  | .Kumamoto => 43
  | .Oita => 44
  | .Miyazaki => 45
  | .Kagoshima => 46
  | .Okinawa => 47
/-- The list of all variants in declaration order (used to state counting
properties of the table). -/
def Prefecture.all : List Prefecture :=
  [.Hokkaido, .Aomori, .Iwate, .Miyagi, .Akita, .Yamagata, .Fukushima, .Ibaraki, .Tochigi, .Gunma, .Saitama, .Chiba, .Tokyo, .Kanagawa, .Niigata, .Toyama, .Ishikawa, .Fukui, .Yamanashi, .Nagano, .Gifu, .Shizuoka, .Aichi, .Mie, .Shiga, .Kyoto, .Osaka, .Hyogo, .Nara, .Wakayama, .Tottori, .Shimane, .Okayama, .Hiroshima, .Yamaguchi, .Tokushima, .Kagawa, .Ehime, .Kochi, .Fukuoka, .Saga, .Nagasaki, .Kumamoto, .Oita, .Miyazaki, .Kagoshima, .Okinawa]

/-- The static table of src/mapping.rs, as an association list in the source
insertion order of the `map.insert` calls. -/
def PREFECTURE_MAP : List (Prefecture × PrefectureData) :=
  [(.Hokkaido, ⟨Prefecture.Hokkaido.jis_x_0401_code, "北海道", "ほっかいどう", "ホッカイドウ", "hokkaido"⟩),
   (.Aomori, ⟨Prefecture.Aomori.jis_x_0401_code, "青森県", "あおもりけん", "アオモリケン", "aomori"⟩),
   (.Iwate, ⟨Prefecture.Iwate.jis_x_0401_code, "岩手県", "いわてけん", "イワテケン", "iwate"⟩),
   (.Miyagi, ⟨Prefecture.Miyagi.jis_x_0401_code, "宮城県", "みやぎけん", "ミヤギケン", "miyagi"⟩),
   (.Akita, ⟨Prefecture.Akita.jis_x_0401_code, "秋田県", "あきたけん", "アキタケン", "akita"⟩),
   (.Yamagata, ⟨Prefecture.Yamagata.jis_x_0401_code, "山形県", "やまがたけん", "ヤマガタケン", "yamagata"⟩),
   (.Fukushima, ⟨Prefecture.Fukushima.jis_x_0401_code, "福島県", "ふくしまけん", "フクシマケン", "fukushima"⟩),
   (.Ibaraki, ⟨Prefecture.Ibaraki.jis_x_0401_code, "茨城県", "いばらきけん", "イバラキケン", "ibaraki"⟩),
   (.Tochigi, ⟨Prefecture.Tochigi.jis_x_0401_code, "栃木県", "とちぎけん", "トチギケン", "tochigi"⟩),
   (.Gunma, ⟨Prefecture.Gunma.jis_x_0401_code, "群馬県", "ぐんまけん", "グンマケン", "gunma"⟩),
   (.Saitama, ⟨Prefecture.Saitama.jis_x_0401_code, "埼玉県", "さいたまけん", "サイタマケン", "saitama"⟩),
   (.Chiba, ⟨Prefecture.Chiba.jis_x_0401_code, "千葉県", "ちばけん", "チバケン", "chiba"⟩),
   (.Tokyo, ⟨Prefecture.Tokyo.jis_x_0401_code, "東京都", "とうきょうと", "トウキョウト", "tokyo"⟩),
   (.Kanagawa, ⟨Prefecture.Kanagawa.jis_x_0401_code, "神奈川県", "かながわけん", "カナガワケン", "kanagawa"⟩),
   (.Niigata, ⟨Prefecture.Niigata.jis_x_0401_code, "新潟県", "にいがたけん", "ニイガタケン", "niigata"⟩),
   (.Toyama, ⟨Prefecture.Toyama.jis_x_0401_code, "富山県", "とやまけん", "トヤマケン", "toyama"⟩),
   (.Ishikawa, ⟨Prefecture.Ishikawa.jis_x_0401_code, "石川県", "いしかわけん", "イシカワケン", "ishikawa"⟩),
   (.Fukui, ⟨Prefecture.Fukui.jis_x_0401_code, "福井県", "ふくいけん", "フクイケン", "fukui"⟩),
   (.Yamanashi, ⟨Prefecture.Yamanashi.jis_x_0401_code, "山梨県", "やまなしけん", "ヤマナシケン", "yamanashi"⟩),
   (.Nagano, ⟨Prefecture.Nagano.jis_x_0401_code, "長野県", "ながのけん", "ナガノケン", "nagano"⟩),
   (.Gifu, ⟨Prefecture.Gifu.jis_x_0401_code, "岐阜県", "ぎふけん", "ギフケン", "gifu"⟩),
   (.Shizuoka, ⟨Prefecture.Shizuoka.jis_x_0401_code, "静岡県", "しずおかけん", "シズオカケン", "shizuoka"⟩),
   (.Aichi, ⟨Prefecture.Aichi.jis_x_0401_code, "愛知県", "あいちけん", "アイチケン", "aichi"⟩),
   (.Mie, ⟨Prefecture.Mie.jis_x_0401_code, "三重県", "みえけん", "ミエケン", "mie"⟩),
   (.Shiga, ⟨Prefecture.Shiga.jis_x_0401_code, "滋賀県", "しがけん", "シガケン", "shiga"⟩),
   (.Kyoto, ⟨Prefecture.Kyoto.jis_x_0401_code, "京都府", "きょうとふ", "キョウトフ", "kyoto"⟩),
   (.Osaka, ⟨Prefecture.Osaka.jis_x_0401_code, "大阪府", "おおさかふ", "オオサカフ", "osaka"⟩),
   (.Hyogo, ⟨Prefecture.Hyogo.jis_x_0401_code, "兵庫県", "ひょうごけん", "ヒョウゴケン", "hyogo"⟩),
   (.Nara, ⟨Prefecture.Nara.jis_x_0401_code, "奈良県", "ならけん", "ナラケン", "nara"⟩),
   (.Wakayama, ⟨Prefecture.Wakayama.jis_x_0401_code, "和歌山県", "わかやまけん", "ワカヤマケン", "wakayama"⟩),
   (.Tottori, ⟨Prefecture.Tottori.jis_x_0401_code, "鳥取県", "とっとりけん", "トットリケン", "tottori"⟩),
   (.Shimane, ⟨Prefecture.Shimane.jis_x_0401_code, "島根県", "しまねけん", "シマネケン", "shimane"⟩),
   (.Okayama, ⟨Prefecture.Okayama.jis_x_0401_code, "岡山県", "おかやまけん", "オカヤマケン", "okayama"⟩),
   (.Hiroshima, ⟨Prefecture.Hiroshima.jis_x_0401_code, "広島県", "ひろしまけん", "ヒロシマケン", "hiroshima"⟩),
   (.Yamaguchi, ⟨Prefecture.Yamaguchi.jis_x_0401_code, "山口県", "やまぐちけん", "ヤマグチケン", "yamaguchi"⟩),
   (.Tokushima, ⟨Prefecture.Tokushima.jis_x_0401_code, "徳島県", "とくしまけん", "トクシマケン", "tokushima"⟩),
   (.Kagawa, ⟨Prefecture.Kagawa.jis_x_0401_code, "香川県", "かがわけん", "カガワケン", "kagawa"⟩),
   (.Ehime, ⟨Prefecture.Ehime.jis_x_0401_code, "愛媛県", "えひめけん", "エヒメケン", "ehime"⟩),
   (.Kochi, ⟨Prefecture.Kochi.jis_x_0401_code, "高知県", "こうちけん", "コウチケン", "kochi"⟩),
   (.Fukuoka, ⟨Prefecture.Fukuoka.jis_x_0401_code, "福岡県", "ふくおかけん", "フクシマケン", "fukuoka"⟩),
   (.Saga, ⟨Prefecture.Saga.jis_x_0401_code, "佐賀県", "さがけん", "サガケン", "saga"⟩),
   (.Nagasaki, ⟨Prefecture.Nagasaki.jis_x_0401_code, "長崎県", "ながさきけん", "ナガサキケン", "nagasaki"⟩),
   (.Kumamoto, ⟨Prefecture.Kumamoto.jis_x_0401_code, "熊本県", "くまもとけん", "クマモトケン", "kumamoto"⟩),
   (.Oita, ⟨Prefecture.Oita.jis_x_0401_code, "大分県", "おおいたけん", "オオイタケン", "oita"⟩),
   (.Miyazaki, ⟨Prefecture.Miyazaki.jis_x_0401_code, "宮崎県", "みやざきけん", "ミヤザキケン", "miyazaki"⟩),
   (.Kagoshima, ⟨Prefecture.Kagoshima.jis_x_0401_code, "鹿児島県", "かごしまけん", "カゴシマケン", "kagoshima"⟩),
   (.Okinawa, ⟨Prefecture.Okinawa.jis_x_0401_code, "沖縄県", "おきなわけん", "オキナワケン", "okinawa"⟩)]

/-- Association-list version of `HashMap::get`: the first binding of the key
wins (bindings are prepended by `hmInsert`, so the most recent insert wins, as
for the Rust map). -/
def assocGet {α β : Type} [DecidableEq α] (k : α) : List (α × β) → Option β
  | [] => none
  | (k', v) :: t => if k = k' then some v else assocGet k t

/-- Association-list version of `HashMap::insert`: the new binding shadows any
earlier binding of the same key. -/
def hmInsert {α β : Type} (m : List (α × β)) (k : α) (v : β) : List (α × β) :=
  (k, v) :: m

/-- The `PREFECTURE_MAP.get(self)` lookup used by every accessor. -/
def mapGet (p : Prefecture) : Option PrefectureData :=
  assocGet p PREFECTURE_MAP

/-- Accessor `Prefecture::kanji`.  The `none` branch is the
`expect("Unexpected error")` panic of the source, shown unreachable by the
table-totality theorem. -/
def Prefecture.kanji (p : Prefecture) : String :=
  match mapGet p with
  | some data => data.kanji
  | none => ""

/-- Accessor `Prefecture::hiragana` (same panic modelling as `kanji`). -/
def Prefecture.hiragana (p : Prefecture) : String :=
  match mapGet p with
  | some data => data.hiragana
  | none => ""

/-- Accessor `Prefecture::katakana` (same panic modelling as `kanji`). -/
def Prefecture.katakana (p : Prefecture) : String :=
  match mapGet p with
  | some data => data.katakana
  | none => ""

/-- Worker for `trim_end_matches`, on reversed character lists: repeatedly
drop the (reversed) pattern while it heads the reversed string.  Fuel is the
string length, enough for every possible removal. -/
def trimEndRev (patR : List Char) : Nat → List Char → List Char
  | 0, r => r
  | fuel + 1, r =>
    if !patR.isEmpty && patR.isPrefixOf r then
      trimEndRev patR fuel (r.drop patR.length)
    else r

/-- Rust `str::trim_end_matches` for a string (or single-char) pattern:
removes all trailing occurrences of the pattern. -/
def trimEndMatches (s pat : String) : String :=
  String.mk (trimEndRev pat.data.reverse s.data.length s.data.reverse).reverse

/-- Accessor `Prefecture::kanji_short`: class-based suffix stripping of the
kanji name (src/prefectures.rs lines 125-134). -/
def Prefecture.kanji_short (p : Prefecture) : String :=
  let kanji := p.kanji
  match p with
  | .Hokkaido => kanji
  | .Tokyo => trimEndMatches kanji "都"
  | .Kyoto | .Osaka => trimEndMatches kanji "府"
  | _ => trimEndMatches kanji "県"

/-- Accessor `Prefecture::hiragana_short` (src/prefectures.rs lines
166-175). -/
def Prefecture.hiragana_short (p : Prefecture) : String :=
  let hiragana := p.hiragana
  match p with
  | .Hokkaido => hiragana
  | .Tokyo => trimEndMatches hiragana "と"
  | .Kyoto | .Osaka => trimEndMatches hiragana "ふ"
  | _ => trimEndMatches hiragana "けん"

/-- Accessor `Prefecture::katakana_short` (src/prefectures.rs lines
207-216). -/
def Prefecture.katakana_short (p : Prefecture) : String :=
  let katakana := p.katakana
  match p with
  | .Hokkaido => katakana
  | .Tokyo => trimEndMatches katakana "ト"
  | .Kyoto | .Osaka => trimEndMatches katakana "フ"
  | _ => trimEndMatches katakana "ケン"

/-- Accessor `Prefecture::english`: reads the stored Latin field (spelled
`data.english` in src/prefectures.rs, the `romaji` field of the struct) and
capitalizes the first character.  `char::to_uppercase` is one-to-one on the
ASCII data stored here, so `Char.toUpper` is faithful.  The `[]` branch is the
source's second `panic!`-equivalent, also unreachable. -/
def Prefecture.english (p : Prefecture) : String :=
  let romaji := match mapGet p with
    | some data => data.romaji
    | none => ""
  match romaji.data with
  | c :: rest => String.mk (c.toUpper :: rest)
  | [] => ""

/-- Rust `str::to_lowercase`.  Full Unicode lowercasing coincides with ASCII
lowercasing on every character appearing in this crate's data and queries
(ASCII letters, kana and kanji have no other case mappings). -/
def toLowercase (s : String) : String :=
  String.mk (s.data.map Char.toLower)

/-- Rust `str::to_ascii_lowercase`: lowers exactly the ASCII letters, which is
precisely what `Char.toLower` does. -/
def toAsciiLowercase (s : String) : String :=
  String.mk (s.data.map Char.toLower)

/-- Rust `Option::ok_or_else` specialised to this crate's `Error`. -/
def ok_or {α : Type} (o : Option α) (e : Error) : Except Error α :=
  match o with
  | some a => Except.ok a
  | none => Except.error e

/-- The code→prefecture `HashMap` that `find_by_code` builds on every call
(src/prefectures.rs lines 253-261). -/
def codeMap : List (Nat × Prefecture) :=
  PREFECTURE_MAP.foldl (fun m entry => hmInsert m entry.1.jis_x_0401_code entry.1) []

/-- `find_by_code` (src/prefectures.rs lines 253-261). -/
def find_by_code (code : Nat) : Except Error Prefecture :=
  ok_or (assocGet code codeMap) (Error.InvalidPrefectureCode code)

/-- The name→prefecture `HashMap` that `find_by_kanji` builds on every call:
full and short kanji names of every entry (src/prefectures.rs lines
274-283). -/
def kanjiMap : List (String × Prefecture) :=
  PREFECTURE_MAP.foldl
    (fun m entry => hmInsert (hmInsert m entry.1.kanji entry.1) entry.1.kanji_short entry.1) []

/-- `find_by_kanji` (src/prefectures.rs lines 274-283). -/
def find_by_kanji (kanji : String) : Except Error Prefecture :=
  ok_or (assocGet kanji kanjiMap) (Error.InvalidPrefectureName kanji)

/-- The map that `find_by_hiragana` builds (src/prefectures.rs lines
296-305). -/
def hiraganaMap : List (String × Prefecture) :=
  PREFECTURE_MAP.foldl
    (fun m entry =>
      hmInsert (hmInsert m entry.1.hiragana entry.1) entry.1.hiragana_short entry.1) []

/-- `find_by_hiragana` (src/prefectures.rs lines 296-305). -/
def find_by_hiragana (hiragana : String) : Except Error Prefecture :=
  ok_or (assocGet hiragana hiraganaMap) (Error.InvalidPrefectureName hiragana)

/-- The map that `find_by_katakana` builds (src/prefectures.rs lines
318-327). -/
def katakanaMap : List (String × Prefecture) :=
  PREFECTURE_MAP.foldl
    (fun m entry =>
      hmInsert (hmInsert m entry.1.katakana entry.1) entry.1.katakana_short entry.1) []

/-- `find_by_katakana` (src/prefectures.rs lines 318-327). -/
def find_by_katakana (katakana : String) : Except Error Prefecture :=
  ok_or (assocGet katakana katakanaMap) (Error.InvalidPrefectureName katakana)

/-- `find_by_english` (src/prefectures.rs lines 341-347): linear scan of
`PREFECTURE_MAP` for an entry whose stored Latin field equals the lowercased
query. -/
def find_by_english (english : String) : Except Error Prefecture :=
  ok_or
    ((PREFECTURE_MAP.find? (fun entry => entry.2.romaji == toLowercase english)).map
      (fun entry => entry.1))
    (Error.InvalidPrefectureName english)

/-- The seven-keys-per-entry map that `Prefecture::from_str` builds
(src/prefectures.rs lines 372-382). -/
def fromStrMap : List (String × Prefecture) :=
  PREFECTURE_MAP.foldl
    (fun m entry =>
      let p := entry.1
      hmInsert (hmInsert (hmInsert (hmInsert (hmInsert (hmInsert (hmInsert m
        p.kanji p) p.kanji_short p) p.hiragana p) p.hiragana_short p)
        p.katakana p) p.katakana_short p) (toLowercase p.english) p) []

/-- `Prefecture::from_str` (src/prefectures.rs lines 369-387): looks up the
ASCII-lowercased query; a failure carries the original query string. -/
def Prefecture.from_str (s : String) : Except Error Prefecture :=
  ok_or (assocGet (toAsciiLowercase s) fromStrMap) (Error.InvalidPrefectureName s)

/-- The universal resolver `find` (src/prefectures.rs lines 365-367): it
delegates to `Prefecture::from_str`. -/
def find (s : String) : Except Error Prefecture :=
  Prefecture.from_str s

deriving instance DecidableEq for Except

/-- Membership for a successful association-list lookup. -/
theorem assocGet_mem {α β : Type} [DecidableEq α] {k : α} {v : β} :
    ∀ {l : List (α × β)}, assocGet k l = some v → (k, v) ∈ l
  | [], h => by simp [assocGet] at h
  | (k', v') :: t, h => by
    by_cases hk : k = k'
    · subst hk
      simp [assocGet] at h
      simp [h]
    · simp [assocGet, hk] at h
      exact List.mem_cons_of_mem _ (assocGet_mem h)

/-- When `ok_or` fails, the error is exactly the supplied payload. -/
theorem ok_or_error {α : Type} {o : Option α} {e e' : Error} :
    ok_or o e = Except.error e' → e' = e := by
  cases o with
  | none =>
    intro h
    simp [ok_or] at h
    exact h.symm
  | some a =>
    intro h
    simp [ok_or] at h

/-- C1: the static table is supposed to give no two distinct prefectures any
shared literal name string; in the code as written, Fukuoka and Fukushima are
distinct variants whose katakana full names are the same literal (the table
row for Fukuoka carries Fukushima's katakana reading). -/
theorem shared_katakana_fukuoka_fukushima :
    Prefecture.katakana Prefecture.Fukuoka = Prefecture.katakana Prefecture.Fukushima ∧
    Prefecture.Fukuoka ≠ Prefecture.Fukushima := by
  refine ⟨rfl, by decide⟩

/-- C2: the full-name round-trip fails for katakana: under the fixed source
insertion order, looking up Fukushima's katakana full name returns Fukuoka,
because both prefectures carry the same katakana full name and the later
insert wins the key collision.  (In whichever order the Rust `HashMap` is
iterated, one of the two prefectures loses its round-trip.) -/
theorem roundtrip_full_katakana_failure :
    find_by_katakana (Prefecture.katakana Prefecture.Fukushima) =
      Except.ok Prefecture.Fukuoka := rfl

/-- C3: the short-name round-trip fails for katakana: looking up Fukushima's
katakana short name returns Fukuoka, because Fukuoka's (erroneous) katakana
short name is the same string and shadows it. -/
theorem roundtrip_short_katakana_failure :
    find_by_katakana (Prefecture.katakana_short Prefecture.Fukushima) =
      Except.ok Prefecture.Fukuoka := rfl

/-- C4: the universal resolver does not cover every representation: resolving
Fukushima's katakana full name yields Fukuoka, by the same key collision. -/
theorem find_katakana_representation_failure :
    find (Prefecture.katakana Prefecture.Fukushima) =
      Except.ok Prefecture.Fukuoka := rfl

/-- C5: `find_by_code` succeeds exactly on the codes 1..47, returning the
prefecture with that JIS X 0401 code, and fails with
`InvalidPrefectureCode c` exactly on every code outside 1..47. -/
theorem find_by_code_bijection :
    ∀ c : Nat,
      (1 ≤ c ∧ c ≤ 47 →
        (find_by_code c).map Prefecture.jis_x_0401_code = Except.ok c) ∧
      (find_by_code c = Except.error (Error.InvalidPrefectureCode c) ↔
        ¬(1 ≤ c ∧ c ≤ 47)) := by
  have hkeys : ∀ kp ∈ codeMap, 1 ≤ kp.1 ∧ kp.1 ≤ 47 := by decide
  have hin : ∀ c : Nat, c < 48 → 1 ≤ c →
      (find_by_code c).map Prefecture.jis_x_0401_code = Except.ok c := by decide
  intro c
  refine ⟨fun h => hin c (by omega) h.1, ?_, ?_⟩
  · intro herr hc
    have hok := hin c (by omega) hc.1
    rw [herr] at hok
    simp [Except.map] at hok
  · intro hout
    cases hh : assocGet c codeMap with
    | some p =>
      have hb := hkeys _ (assocGet_mem hh)
      exact absurd ⟨hb.1, hb.2⟩ hout
    | none => simp [find_by_code, hh, ok_or]

/-- Witness for C5: code 13 resolves to the prefecture with code 13, and code
48 fails with the invalid-code error. -/
theorem find_by_code_bijection_witness :
    (find_by_code 13).map Prefecture.jis_x_0401_code = Except.ok 13 ∧
    find_by_code 48 = Except.error (Error.InvalidPrefectureCode 48) :=
  ⟨(find_by_code_bijection 13).1 (by decide),
    (find_by_code_bijection 48).2.mpr (by decide)⟩

/-- C6: the Latin lookup is case-insensitive: any query string that agrees
with a prefecture's Latin name up to ASCII letter case (same lowercasing)
resolves to that prefecture. -/
theorem find_by_english_case_insensitive :
    ∀ (p : Prefecture) (q : String),
      toLowercase q = toLowercase p.english →
      find_by_english q = Except.ok p := by
  intro p q h
  unfold find_by_english
  rw [h]
  cases p <;> rfl

/-- Witness for C6: the all-caps query resolves to Tokyo. -/
theorem find_by_english_case_insensitive_witness :
    toLowercase "TOKYO" = toLowercase (Prefecture.english Prefecture.Tokyo) ∧
    find_by_english "TOKYO" = Except.ok Prefecture.Tokyo :=
  ⟨rfl, find_by_english_case_insensitive Prefecture.Tokyo "TOKYO" rfl⟩

/-- C7: the three-way administrative classification of short names: Hokkaido
is the only prefecture whose short names equal its full names in all three
scripts; Tokyo strips the one-character metropolis suffix in each script;
Kyoto and Osaka strip the one-character capital suffix in each script; and
the remaining 43 prefectures strip the default suffix (one kanji character,
two kana characters). -/
theorem short_name_classification :
    (Prefecture.all.filter (fun p =>
        decide (p.kanji_short = p.kanji ∧ p.hiragana_short = p.hiragana ∧
          p.katakana_short = p.katakana))) = [Prefecture.Hokkaido]
    ∧ Prefecture.kanji_short .Tokyo ++ "都" = Prefecture.kanji .Tokyo
    ∧ Prefecture.hiragana_short .Tokyo ++ "と" = Prefecture.hiragana .Tokyo
    ∧ Prefecture.katakana_short .Tokyo ++ "ト" = Prefecture.katakana .Tokyo
    ∧ Prefecture.kanji_short .Kyoto ++ "府" = Prefecture.kanji .Kyoto
    ∧ Prefecture.hiragana_short .Kyoto ++ "ふ" = Prefecture.hiragana .Kyoto
    ∧ Prefecture.katakana_short .Kyoto ++ "フ" = Prefecture.katakana .Kyoto
    ∧ Prefecture.kanji_short .Osaka ++ "府" = Prefecture.kanji .Osaka
    ∧ Prefecture.hiragana_short .Osaka ++ "ふ" = Prefecture.hiragana .Osaka
    ∧ Prefecture.katakana_short .Osaka ++ "フ" = Prefecture.katakana .Osaka
    ∧ (Prefecture.all.filter (fun p =>
        decide (p ∉ ([.Hokkaido, .Tokyo, .Kyoto, .Osaka] : List Prefecture)))).length = 43
    ∧ (Prefecture.all.filter (fun p =>
        decide (p ∉ ([.Hokkaido, .Tokyo, .Kyoto, .Osaka] : List Prefecture)))).all
        (fun p => p.kanji_short ++ "県" == p.kanji &&
          p.hiragana_short ++ "けん" == p.hiragana &&
          p.katakana_short ++ "ケン" == p.katakana) = true := by
  decide

/-- C8: a failed lookup of any of the six lookup functions returns an error
value that carries exactly the caller's original code or string, never a
normalized version of it. -/
theorem errors_carry_original_input :
    ∀ (c : Nat) (s : String) (e : Error),
      (find_by_code c = Except.error e → e = Error.InvalidPrefectureCode c) ∧
      (find_by_kanji s = Except.error e → e = Error.InvalidPrefectureName s) ∧
      (find_by_hiragana s = Except.error e → e = Error.InvalidPrefectureName s) ∧
      (find_by_katakana s = Except.error e → e = Error.InvalidPrefectureName s) ∧
      (find_by_english s = Except.error e → e = Error.InvalidPrefectureName s) ∧
      (find s = Except.error e → e = Error.InvalidPrefectureName s) := by
  intro c s e
  exact ⟨fun h => ok_or_error h, fun h => ok_or_error h, fun h => ok_or_error h,
    fun h => ok_or_error h, fun h => ok_or_error h, fun h => ok_or_error h⟩

/-- Witness for C8: the failed lookup `find "none"` carries the original
query string in its error. -/
theorem errors_carry_original_input_witness :
    find "none" = Except.error (Error.InvalidPrefectureName "none") ∧
    Error.InvalidPrefectureName "none" = Error.InvalidPrefectureName "none" :=
  ⟨rfl, (errors_carry_original_input 0 "none" (Error.InvalidPrefectureName "none")).2.2.2.2.2 rfl⟩

/-- C9: the static table has a row for every one of the 47 variants, so the
accessors never reach their panic branch and each returns a non-empty
string. -/
theorem table_total_accessors_nonempty :
    ∀ p : Prefecture, (mapGet p).isSome = true ∧
      p.kanji ≠ "" ∧ p.hiragana ≠ "" ∧ p.katakana ≠ "" ∧ p.english ≠ "" := by
  decide

/-- C10: the universal resolver `find` agrees with `Prefecture::from_str` on
every input string: `find` merely delegates to it. -/
theorem find_eq_from_str :
    ∀ s : String, find s = Prefecture.from_str s := fun _ => rfl


end JpPrefecture
